import Mathlib

/-!
Verification of the m3cluster kv watch-bridge and value-decoder layer.

The repository keeps a process-local typed variable synchronized with a
single entry in a versioned key-value store.  Stored payloads are one of
five protobuf messages (BoolProto, Int64Proto, Float64Proto, StringProto,
StringArrayProto); time instants are stored as Int64Proto Unix seconds.
The one-shot decoders (`BoolFromValue`, `Int64FromValue`, ...) convert an
optional stored value into a typed value, applying a caller default when
the value is absent and an optional validation predicate when present.
The watch bridge consumes change notifications, decodes each one with the
same rules, and applies accepted values to a caller-owned target variable;
`Close` stops the bridge idempotently and suppresses all later updates.

The etcd client options (`src/kv/etcd/options.go`) are embedded from the
source; the decoder and watch-loop behavior are modelled from the spec
(the file `kv/util/util.go` itself is not in the source tree, only its
tests are).
-/

namespace M3Cluster

/-- A protobuf payload stored in the kv store (generated/proto/commonpb).
float64 values are modelled as rationals: the decoder only carries them
through, it never computes with them. -/
inductive Payload where
  | boolProto (value : Bool)
  | int64Proto (value : Int)
  | float64Proto (value : Rat)
  | stringProto (value : String)
  | stringArrayProto (values : List String)
  deriving DecidableEq

/-- A stored value: an opaque payload plus a version number (kv.Value;
mem.NewValue(version, payload)).  Absence of the key is modelled by
`Option StoredValue` being `none`. -/
structure StoredValue where
  version : Nat
  payload : Payload
  deriving DecidableEq

/-- A time instant, identified by its signed count of seconds since the
Unix epoch (the stored representation per spec section 4.1). -/
structure TimeInstant where
  unixSeconds : Int
  deriving DecidableEq

/-- Errors of the one-shot decode path: the payload shape does not match
the requested type (DecodeError), or the decoded value is rejected by the
caller-supplied predicate (ValidationError wrapping the reported reason). -/
inductive UtilError where
  | decodeError (key : String)
  | validationError (key : String) (reason : String)
  deriving DecidableEq

/-- Modelled from the spec: a ValidateFn is a predicate returning
error-or-nil over a decoded value; `none` means the value is accepted,
`some reason` means it is rejected with that reason. -/
def ValidateFn (T : Type) : Type := T → Option String

/-- Modelled from the spec: Options for the util layer carry only the
optional ValidateFn (NewOptions().SetValidateFn(...)); a nil Options means
no validation. -/
structure UtilOptions (T : Type) where
  validateFn : Option (ValidateFn T)

/-- The validator carried by a possibly-nil Options value: nil Options and
an Options with no ValidateFn set both mean no validation. -/
def optsValidateFn {T : Type} : Option (UtilOptions T) → Option (ValidateFn T)
  | none => none
  | some o => o.validateFn

/-- Modelled from the spec (section 4.1, `kv/util/util.go` is absent from
the source tree): the shared decode helper behind the six one-shot
decoders.  An absent stored value yields the default with no error and no
validation; a present payload that cannot be interpreted as T yields a
DecodeError naming the key; a decoded value rejected by the validator
yields a ValidationError wrapping the reported reason; otherwise the
decoded value. -/
def decodeWithDefault {T : Type} (decodePayload : Payload → Option T)
    (storedValue : Option StoredValue) (keyName : String)
    (defaultValue : T) (validateFn : Option (ValidateFn T)) :
    Except UtilError T :=
  match storedValue with
  | none => Except.ok defaultValue
  | some sv =>
    match decodePayload sv.payload with
    | none => Except.error (UtilError.decodeError keyName)
    | some v =>
      match validateFn with
      | none => Except.ok v
      | some f =>
        match f v with
        | none => Except.ok v
        | some reason => Except.error (UtilError.validationError keyName reason)

/-- Interpreting a payload as a bool: only a BoolProto qualifies. -/
def decodeBoolPayload : Payload → Option Bool
  | Payload.boolProto b => some b
  | _ => none

/-- Interpreting a payload as an int64: only an Int64Proto qualifies. -/
def decodeInt64Payload : Payload → Option Int
  | Payload.int64Proto i => some i
  | _ => none

/-- Interpreting a payload as a float64: only a Float64Proto qualifies. -/
def decodeFloat64Payload : Payload → Option Rat
  | Payload.float64Proto r => some r
  | _ => none

/-- Interpreting a payload as a string: only a StringProto qualifies. -/
def decodeStringPayload : Payload → Option String
  | Payload.stringProto s => some s
  | _ => none

/-- Interpreting a payload as a string array: only a StringArrayProto
qualifies; insertion order is preserved. -/
def decodeStringArrayPayload : Payload → Option (List String)
  | Payload.stringArrayProto vs => some vs
  | _ => none

/-- Interpreting a payload as a time instant: an Int64Proto holding Unix
seconds (spec section 4.1: time-instant decoding constructs an instant
from the signed 64-bit second count). -/
def decodeTimePayload : Payload → Option TimeInstant
  | Payload.int64Proto s => some (TimeInstant.mk s)
  | _ => none

/-- Modelled from the spec: BoolFromValue. -/
def BoolFromValue (v : Option StoredValue) (key : String)
    (defaultValue : Bool) (opts : Option (UtilOptions Bool)) :
    Except UtilError Bool :=
  decodeWithDefault decodeBoolPayload v key defaultValue (optsValidateFn opts)

/-- Modelled from the spec: Int64FromValue. -/
def Int64FromValue (v : Option StoredValue) (key : String)
    (defaultValue : Int) (opts : Option (UtilOptions Int)) :
    Except UtilError Int :=
  decodeWithDefault decodeInt64Payload v key defaultValue (optsValidateFn opts)

/-- Modelled from the spec: Float64FromValue. -/
def Float64FromValue (v : Option StoredValue) (key : String)
    (defaultValue : Rat) (opts : Option (UtilOptions Rat)) :
    Except UtilError Rat :=
  decodeWithDefault decodeFloat64Payload v key defaultValue (optsValidateFn opts)

/-- Modelled from the spec: StringFromValue. -/
def StringFromValue (v : Option StoredValue) (key : String)
    (defaultValue : String) (opts : Option (UtilOptions String)) :
    Except UtilError String :=
  decodeWithDefault decodeStringPayload v key defaultValue (optsValidateFn opts)

/-- Modelled from the spec: StringArrayFromValue. -/
def StringArrayFromValue (v : Option StoredValue) (key : String)
    (defaultValue : List String) (opts : Option (UtilOptions (List String))) :
    Except UtilError (List String) :=
  decodeWithDefault decodeStringArrayPayload v key defaultValue (optsValidateFn opts)

/-- Modelled from the spec: TimeFromValue. -/
def TimeFromValue (v : Option StoredValue) (key : String)
    (defaultValue : TimeInstant) (opts : Option (UtilOptions TimeInstant)) :
    Except UtilError TimeInstant :=
  decodeWithDefault decodeTimePayload v key defaultValue (optsValidateFn opts)

/-!
The watch bridge (spec section 4.2), modelled from the spec: the engine
state is the caller-owned Target plus a Closed flag set exactly once by
`Close`.  A notification carries either the current stored value or `none`
for an explicit key deletion.  The background loop is the fold of the
per-notification step over the delivered notification sequence.  Lock
acquisition around the Target write is modelled by the write itself being
the only mutation of `target`; notifications observed after the bridge is
closed are dropped.
-/

/-- Modelled from the spec: the observable state of one watch-bridge
handle, the caller-owned Target variable plus the Closed flag. -/
structure BridgeState (T : Type) where
  target : T
  closed : Bool
  deriving DecidableEq

/-- Modelled from the spec (section 4.2): processing one notification and
reporting the value written to Target this step, if any.  A notification
observed after close is dropped.  Otherwise the payload is decoded with
the default and validator fixed at construction time: on success the value
is written to Target under the lock; on decode or validation failure the
notification is silently discarded and no error is surfaced; an explicit
deletion (`none`) decodes to the default, bypassing validation. -/
def stepNotification {T : Type} (decodePayload : Payload → Option T)
    (keyName : String) (defaultValue : T) (validateFn : Option (ValidateFn T))
    (st : BridgeState T) (n : Option StoredValue) :
    BridgeState T × Option T :=
  if st.closed then (st, none)
  else
    match decodeWithDefault decodePayload n keyName defaultValue validateFn with
    | Except.ok v => ({ st with target := v }, some v)
    | Except.error _ => (st, none)

/-- The state after processing one notification. -/
def processNotification {T : Type} (decodePayload : Payload → Option T)
    (keyName : String) (defaultValue : T) (validateFn : Option (ValidateFn T))
    (st : BridgeState T) (n : Option StoredValue) : BridgeState T :=
  (stepNotification decodePayload keyName defaultValue validateFn st n).1

/-- Modelled from the spec: the background loop, folding the notification
step over the delivered notification sequence in delivery order. -/
def watchLoop {T : Type} (decodePayload : Payload → Option T)
    (keyName : String) (defaultValue : T) (validateFn : Option (ValidateFn T))
    (st : BridgeState T) : List (Option StoredValue) → BridgeState T
  | [] => st
  | n :: ns =>
    watchLoop decodePayload keyName defaultValue validateFn
      (processNotification decodePayload keyName defaultValue validateFn st n) ns

/-- The sequence of values the loop writes to Target while processing the
given notifications, in write order. -/
def writeTrace {T : Type} (decodePayload : Payload → Option T)
    (keyName : String) (defaultValue : T) (validateFn : Option (ValidateFn T))
    (st : BridgeState T) : List (Option StoredValue) → List T
  | [] => []
  | n :: ns =>
    match stepNotification decodePayload keyName defaultValue validateFn st n with
    | (st2, some v) => v :: writeTrace decodePayload keyName defaultValue validateFn st2 ns
    | (st2, none) => writeTrace decodePayload keyName defaultValue validateFn st2 ns

/-- Modelled from the spec: Close sets the Closed flag; it returns no
error and is safe to repeat. -/
def closeBridge {T : Type} (st : BridgeState T) : BridgeState T :=
  { st with closed := true }

/-!
The etcd client options, embedded from `src/kv/etcd/options.go`.
time.Duration fields are signed 64-bit nanosecond counts, modelled as Int.
The instrument and retry option objects are external collaborators with no
algorithmic content; only their nil-ness is observable here, modelled as a
presence flag.  The `prefix` field of the source is named `keyPrefix`.
-/

/-- A function generating a cache file path from a namespace
(`CacheFileFn` in the source). -/
def CacheFileFn : Type := String → String

/-- The etcd client options struct (`options` in the source). -/
structure EtcdOptions where
  requestTimeout : Int
  keyPrefix : String
  ioptsPresent : Bool
  roptsPresent : Bool
  watchChanCheckInterval : Int
  watchChanResetInterval : Int
  watchChanInitTimeout : Int
  cacheFileFn : CacheFileFn

/-- 10 * time.Second in nanoseconds, the shared default of the four
duration fields in the source. -/
def defaultEtcdDuration : Int := 10 * 1000000000

/-- NewOptions: the sane defaults from the source (all four durations 10s,
instrument and retry options present, empty key prefix, cache file
function returning the empty string). -/
def NewEtcdOptions : EtcdOptions :=
  { requestTimeout := defaultEtcdDuration
    keyPrefix := ""
    ioptsPresent := true
    roptsPresent := true
    watchChanCheckInterval := defaultEtcdDuration
    watchChanResetInterval := defaultEtcdDuration
    watchChanInitTimeout := defaultEtcdDuration
    cacheFileFn := fun _ => "" }

/-- Prefix: the getter of the key prefix field. -/
def OptionsPrefix (o : EtcdOptions) : String :=
  o.keyPrefix

/-- SetPrefix: the setter of the key prefix field. -/
def SetOptionsPrefix (o : EtcdOptions) (p : String) : EtcdOptions :=
  { o with keyPrefix := p }

/-- ApplyPrefix from the source: the key unchanged when the prefix is
empty, else Sprintf of prefix, a slash, and the key. -/
def ApplyPrefix (o : EtcdOptions) (key : String) : String :=
  if o.keyPrefix = "" then key
  else o.keyPrefix ++ "/" ++ key

/-- Validate from the source: requires instrument options, retry options,
and a positive watch channel check interval. -/
def ValidateEtcdOptions (o : EtcdOptions) : Option String :=
  if o.ioptsPresent = false then some "no instrument options"
  else if o.roptsPresent = false then some "no retry options"
  else if o.watchChanCheckInterval ≤ 0 then some "invalid watch channel check interval"
  else none

/-!
Helper lemmas shared by the claim theorems.
-/

/-- Processing a notification never changes the Closed flag: only Close
does. -/
theorem processNotification_closed {T : Type} (decodePayload : Payload → Option T)
    (keyName : String) (defaultValue : T) (validateFn : Option (ValidateFn T))
    (st : BridgeState T) (n : Option StoredValue) :
    (processNotification decodePayload keyName defaultValue validateFn st n).closed
      = st.closed := by
  unfold processNotification stepNotification
  cases hc : st.closed with
  | true => simp [hc]
  | false =>
    simp [hc]
    cases decodeWithDefault decodePayload n keyName defaultValue validateFn <;> simp [hc]

/-- A notification observed on a closed bridge leaves the state unchanged. -/
theorem processNotification_of_closed {T : Type} (decodePayload : Payload → Option T)
    (keyName : String) (defaultValue : T) (validateFn : Option (ValidateFn T))
    (st : BridgeState T) (n : Option StoredValue) (h : st.closed = true) :
    processNotification decodePayload keyName defaultValue validateFn st n = st := by
  unfold processNotification stepNotification
  simp [h]

/-- The loop on a closed bridge drops every notification. -/
theorem watchLoop_of_closed {T : Type} (decodePayload : Payload → Option T)
    (keyName : String) (defaultValue : T) (validateFn : Option (ValidateFn T))
    (st : BridgeState T) (ns : List (Option StoredValue)) (h : st.closed = true) :
    watchLoop decodePayload keyName defaultValue validateFn st ns = st := by
  induction ns with
  | nil => rfl
  | cons n ns ih =>
    unfold watchLoop
    rw [processNotification_of_closed decodePayload keyName defaultValue validateFn st n h]
    exact ih

/-- Closing twice is the same as closing once. -/
theorem closeBridge_closeBridge {T : Type} (st : BridgeState T) :
    closeBridge (closeBridge st) = closeBridge st := rfl

/-- A closed bridge is a fixed point of Close. -/
theorem closeBridge_iterate_fixed {T : Type} (st : BridgeState T) (n : Nat) :
    closeBridge^[n] (closeBridge st) = closeBridge st := by
  induction n with
  | zero => rfl
  | succ m ih =>
    rw [Function.iterate_succ_apply, closeBridge_closeBridge]
    exact ih

/-- On an open bridge, a sequence of notifications that all decode and
validate is written to Target value for value, in delivery order. -/
theorem writeTrace_roundtrip {T : Type} (decodePayload : Payload → Option T)
    (encodePayload : T → Payload)
    (hround : ∀ v, decodePayload (encodePayload v) = some v)
    (keyName : String) (defaultValue : T) (st : BridgeState T)
    (h : st.closed = false) (ds : List T) :
    writeTrace decodePayload keyName defaultValue none st
      (List.map (fun v => some (StoredValue.mk 0 (encodePayload v))) ds) = ds := by
  induction ds generalizing st with
  | nil => rfl
  | cons v tl ih =>
    unfold writeTrace
    simp [stepNotification, h, decodeWithDefault, hround]
    exact ih (BridgeState.mk v false) rfl

/-!
The claim theorems.
-/

/-- C1: for every watch bridge (any supported element type, given by its
payload interpretation), a notification whose payload fails to decode or
decodes but is rejected by the validator — i.e. one on which the decode
helper reports an error — is discarded: the state, and in particular the
Target, is exactly what it was before, and the step surfaces no error
(its result type has no error channel; the error is absorbed). -/
theorem watch_bad_update_discarded {T : Type} (decodePayload : Payload → Option T)
    (keyName : String) (defaultValue : T) (validateFn : Option (ValidateFn T))
    (st : BridgeState T) (sv : StoredValue) (e : UtilError)
    (h : decodeWithDefault decodePayload (some sv) keyName defaultValue validateFn
          = Except.error e) :
    processNotification decodePayload keyName defaultValue validateFn st (some sv) = st := by
  unfold processNotification stepNotification
  by_cases hc : st.closed
  · simp [hc]
  · simp [hc, h]

/-- C1 witness: a Float64Proto payload on a bool bridge (decode failure),
and a false BoolProto on a bool bridge whose validator rejects false
(validation failure), both leave the state ⟨true, false⟩ unchanged. -/
theorem watch_bad_update_discarded_witness :
    processNotification decodeBoolPayload "foo" false none
      (BridgeState.mk true false) (some (StoredValue.mk 1 (Payload.float64Proto 20))) =
      BridgeState.mk true false ∧
    processNotification decodeBoolPayload "foo" false
      (some fun v => if v = false then some "value of update is false, must be true" else none)
      (BridgeState.mk true false) (some (StoredValue.mk 2 (Payload.boolProto false))) =
      BridgeState.mk true false :=
  ⟨watch_bad_update_discarded decodeBoolPayload "foo" false none
      (BridgeState.mk true false) (StoredValue.mk 1 (Payload.float64Proto 20))
      (UtilError.decodeError "foo") rfl,
   watch_bad_update_discarded decodeBoolPayload "foo" false
      (some fun v => if v = false then some "value of update is false, must be true" else none)
      (BridgeState.mk true false) (StoredValue.mk 2 (Payload.boolProto false))
      (UtilError.validationError "foo" "value of update is false, must be true") rfl⟩

/-- C2: for every supported type, key, default and options value — the
options possibly carrying a validator that would reject the default — the
one-shot decoder applied to an absent stored value returns exactly the
default with no error; the result does not depend on the validator. -/
theorem fromValue_absent_returns_default :
    ∀ (key : String),
    (∀ (d : Bool) (opts : Option (UtilOptions Bool)),
        BoolFromValue none key d opts = Except.ok d) ∧
    (∀ (d : Int) (opts : Option (UtilOptions Int)),
        Int64FromValue none key d opts = Except.ok d) ∧
    (∀ (d : Rat) (opts : Option (UtilOptions Rat)),
        Float64FromValue none key d opts = Except.ok d) ∧
    (∀ (d : String) (opts : Option (UtilOptions String)),
        StringFromValue none key d opts = Except.ok d) ∧
    (∀ (d : List String) (opts : Option (UtilOptions (List String))),
        StringArrayFromValue none key d opts = Except.ok d) ∧
    (∀ (d : TimeInstant) (opts : Option (UtilOptions TimeInstant)),
        TimeFromValue none key d opts = Except.ok d) :=
  fun _ =>
    ⟨fun _ _ => rfl, fun _ _ => rfl, fun _ _ => rfl,
     fun _ _ => rfl, fun _ _ => rfl, fun _ _ => rfl⟩

/-- C3: for every supported type, a present stored value whose payload is
of a different type (not the constructor the type decodes from) yields a
DecodeError naming the key, never a silently returned value, whatever the
default and options are. -/
theorem fromValue_wrong_type_decode_error (key : String) (ver : Nat) :
    (∀ (p : Payload) (d : Bool) (opts : Option (UtilOptions Bool)),
      (∀ b, p ≠ Payload.boolProto b) →
      BoolFromValue (some (StoredValue.mk ver p)) key d opts
        = Except.error (UtilError.decodeError key)) ∧
    (∀ (p : Payload) (d : Int) (opts : Option (UtilOptions Int)),
      (∀ i, p ≠ Payload.int64Proto i) →
      Int64FromValue (some (StoredValue.mk ver p)) key d opts
        = Except.error (UtilError.decodeError key)) ∧
    (∀ (p : Payload) (d : Rat) (opts : Option (UtilOptions Rat)),
      (∀ r, p ≠ Payload.float64Proto r) →
      Float64FromValue (some (StoredValue.mk ver p)) key d opts
        = Except.error (UtilError.decodeError key)) ∧
    (∀ (p : Payload) (d : String) (opts : Option (UtilOptions String)),
      (∀ s, p ≠ Payload.stringProto s) →
      StringFromValue (some (StoredValue.mk ver p)) key d opts
        = Except.error (UtilError.decodeError key)) ∧
    (∀ (p : Payload) (d : List String) (opts : Option (UtilOptions (List String))),
      (∀ vs, p ≠ Payload.stringArrayProto vs) →
      StringArrayFromValue (some (StoredValue.mk ver p)) key d opts
        = Except.error (UtilError.decodeError key)) ∧
    (∀ (p : Payload) (d : TimeInstant) (opts : Option (UtilOptions TimeInstant)),
      (∀ i, p ≠ Payload.int64Proto i) →
      TimeFromValue (some (StoredValue.mk ver p)) key d opts
        = Except.error (UtilError.decodeError key)) := by
  refine ⟨fun p d opts h => ?_, fun p d opts h => ?_, fun p d opts h => ?_,
    fun p d opts h => ?_, fun p d opts h => ?_, fun p d opts h => ?_⟩ <;>
    cases p <;> first
      | rfl
      | exact absurd rfl (h _)

/-- C3 witness: a Float64Proto payload read as int64 and as bool, and a
Float64Proto payload read as a time instant, each fail with a DecodeError
naming the key. -/
theorem fromValue_wrong_type_decode_error_witness :
    Int64FromValue (some (StoredValue.mk 0 (Payload.float64Proto 1.23))) "key" 5 none
      = Except.error (UtilError.decodeError "key") ∧
    BoolFromValue (some (StoredValue.mk 0 (Payload.float64Proto 123))) "key" true none
      = Except.error (UtilError.decodeError "key") ∧
    TimeFromValue (some (StoredValue.mk 0 (Payload.float64Proto 1.23))) "key"
        (TimeInstant.mk 0) none
      = Except.error (UtilError.decodeError "key") :=
  ⟨(fromValue_wrong_type_decode_error "key" 0).2.1
      (Payload.float64Proto 1.23) 5 none (fun _ h => Payload.noConfusion h),
   (fromValue_wrong_type_decode_error "key" 0).1
      (Payload.float64Proto 123) true none (fun _ h => Payload.noConfusion h),
   (fromValue_wrong_type_decode_error "key" 0).2.2.2.2.2
      (Payload.float64Proto 1.23) (TimeInstant.mk 0) none (fun _ h => Payload.noConfusion h)⟩

/-- C4: for every supported type and every validator, a present stored
value that decodes correctly but is rejected by the validator yields a
ValidationError wrapping the reason the predicate reported, not the
decoded value. -/
theorem fromValue_validation_error (key : String) (ver : Nat) :
    (∀ (b d : Bool) (f : ValidateFn Bool) (reason : String), f b = some reason →
      BoolFromValue (some (StoredValue.mk ver (Payload.boolProto b))) key d
          (some (UtilOptions.mk (some f)))
        = Except.error (UtilError.validationError key reason)) ∧
    (∀ (i : Int) (d : Int) (f : ValidateFn Int) (reason : String), f i = some reason →
      Int64FromValue (some (StoredValue.mk ver (Payload.int64Proto i))) key d
          (some (UtilOptions.mk (some f)))
        = Except.error (UtilError.validationError key reason)) ∧
    (∀ (r : Rat) (d : Rat) (f : ValidateFn Rat) (reason : String), f r = some reason →
      Float64FromValue (some (StoredValue.mk ver (Payload.float64Proto r))) key d
          (some (UtilOptions.mk (some f)))
        = Except.error (UtilError.validationError key reason)) ∧
    (∀ (s : String) (d : String) (f : ValidateFn String) (reason : String),
      f s = some reason →
      StringFromValue (some (StoredValue.mk ver (Payload.stringProto s))) key d
          (some (UtilOptions.mk (some f)))
        = Except.error (UtilError.validationError key reason)) ∧
    (∀ (vs : List String) (d : List String) (f : ValidateFn (List String))
      (reason : String), f vs = some reason →
      StringArrayFromValue (some (StoredValue.mk ver (Payload.stringArrayProto vs))) key d
          (some (UtilOptions.mk (some f)))
        = Except.error (UtilError.validationError key reason)) ∧
    (∀ (secs : Int) (d : TimeInstant) (f : ValidateFn TimeInstant)
      (reason : String), f (TimeInstant.mk secs) = some reason →
      TimeFromValue (some (StoredValue.mk ver (Payload.int64Proto secs))) key d
          (some (UtilOptions.mk (some f)))
        = Except.error (UtilError.validationError key reason)) := by
  refine ⟨fun b d f reason h => ?_, fun i d f reason h => ?_, fun r d f reason h => ?_,
    fun s d f reason h => ?_, fun vs d f reason h => ?_, fun secs d f reason h => ?_⟩ <;>
    simp [BoolFromValue, Int64FromValue, Float64FromValue, StringFromValue,
      StringArrayFromValue, TimeFromValue, decodeWithDefault, optsValidateFn,
      decodeBoolPayload, decodeInt64Payload, decodeFloat64Payload,
      decodeStringPayload, decodeStringArrayPayload, decodeTimePayload, h]

/-- C4 witness: the test validators — int64 values above 20 rejected, and
time instants more than a minute past the reference rejected — turn a
well-typed 22 and a two-minutes-later instant into ValidationErrors that
wrap the reported reasons. -/
theorem fromValue_validation_error_witness :
    Int64FromValue (some (StoredValue.mk 0 (Payload.int64Proto 22))) "key" 5
        (some (UtilOptions.mk (some fun v =>
          if 20 < v then some "val must be less than 20" else none)))
      = Except.error (UtilError.validationError "key" "val must be less than 20") ∧
    TimeFromValue (some (StoredValue.mk 0 (Payload.int64Proto 120))) "key"
        (TimeInstant.mk 0)
        (some (UtilOptions.mk (some fun t =>
          if 60 < t.unixSeconds then some "val must be before the bound" else none)))
      = Except.error (UtilError.validationError "key" "val must be before the bound") :=
  ⟨(fromValue_validation_error "key" 0).2.1 22 5
      (fun v => if 20 < v then some "val must be less than 20" else none)
      "val must be less than 20" (by decide),
   (fromValue_validation_error "key" 0).2.2.2.2.2 120 (TimeInstant.mk 0)
      (fun t => if 60 < t.unixSeconds then some "val must be before the bound" else none)
      "val must be before the bound" (by decide)⟩

/-- C5: on an open bridge, an explicit key-deletion notification writes
the defaultValue fixed at construction time to Target, for every validator
— including one that would reject the default, since defaulting bypasses
validation. -/
theorem watch_delete_applies_default {T : Type} (decodePayload : Payload → Option T)
    (keyName : String) (defaultValue : T) (validateFn : Option (ValidateFn T))
    (st : BridgeState T) (h : st.closed = false) :
    processNotification decodePayload keyName defaultValue validateFn st none
      = { st with target := defaultValue } := by
  unfold processNotification stepNotification
  simp [h, decodeWithDefault]

/-- C5 witness: on an open bool bridge at value true, with default false
and a validator that rejects false, a deletion notification still writes
false (the default) to Target. -/
theorem watch_delete_applies_default_witness :
    processNotification decodeBoolPayload "foo" false
      (some fun v => if v = false then some "value of update is false, must be true" else none)
      (BridgeState.mk true false) none = BridgeState.mk false false :=
  watch_delete_applies_default decodeBoolPayload "foo" false
    (some fun v => if v = false then some "value of update is false, must be true" else none)
    (BridgeState.mk true false) rfl

/-- C6: for every handle state and every N ≥ 1, calling Close N times
yields exactly the state of calling it once; Close is total, so no call
returns or raises an error. -/
theorem close_idempotent {T : Type} (st : BridgeState T) (n : Nat) (h : 1 ≤ n) :
    closeBridge^[n] st = closeBridge st := by
  obtain ⟨m, rfl⟩ : ∃ m, n = m + 1 := ⟨n - 1, by omega⟩
  rw [Function.iterate_succ_apply]
  exact closeBridge_iterate_fixed st m

/-- C6 witness: closing a concrete bool bridge three times equals closing
it once. -/
theorem close_idempotent_witness :
    closeBridge^[3] (BridgeState.mk false false) = closeBridge (BridgeState.mk false false) :=
  close_idempotent (BridgeState.mk false false) 3 (by decide)

/-- C7: after Close has taken effect, no sequence of further notifications
— whatever store mutations produced them — changes the state: the loop
over any post-close notification list returns the closed state itself, so
Target stays at the value it held when Close took effect. -/
theorem post_close_suppression {T : Type} (decodePayload : Payload → Option T)
    (keyName : String) (defaultValue : T) (validateFn : Option (ValidateFn T))
    (st : BridgeState T) (ns : List (Option StoredValue)) :
    watchLoop decodePayload keyName defaultValue validateFn (closeBridge st) ns
      = closeBridge st :=
  watchLoop_of_closed decodePayload keyName defaultValue validateFn (closeBridge st) ns rfl

/-- C8: for every sequence vs of valid Sets (values whose payloads decode
back to themselves, with no validator) and every delivered subsequence ds
of it (the store may coalesce), the sequence of values the open bridge
writes to Target is a subsequence of vs in order — never out of order. -/
theorem watch_order_subsequence {T : Type} (decodePayload : Payload → Option T)
    (encodePayload : T → Payload)
    (hround : ∀ v, decodePayload (encodePayload v) = some v)
    (keyName : String) (defaultValue : T) (st : BridgeState T)
    (hcl : st.closed = false) (vs ds : List T) (hsub : List.Sublist ds vs) :
    List.Sublist
      (writeTrace decodePayload keyName defaultValue none st
        (List.map (fun v => some (StoredValue.mk 0 (encodePayload v))) ds))
      vs := by
  rw [writeTrace_roundtrip decodePayload encodePayload hround keyName defaultValue st hcl ds]
  exact hsub

/-- C8 witness: on an open int64 bridge, the delivered subsequence 1, 21
of the valid Sets 1, 7, 21 is written to Target as 1, 21 — a subsequence
of the Sets in order. -/
theorem watch_order_subsequence_witness :
    List.Sublist
      (writeTrace decodeInt64Payload "foo" 3 none (BridgeState.mk 0 false)
        (List.map (fun v => some (StoredValue.mk 0 (Payload.int64Proto v))) [1, 21]))
      [1, 7, 21] :=
  watch_order_subsequence decodeInt64Payload Payload.int64Proto (fun _ => rfl)
    "foo" 3 (BridgeState.mk 0 false) rfl [1, 7, 21] [1, 21] (by simp)

/-- C9: with no validator, a present string-array payload with empty
Values decodes to the empty array — not to the default when the default is
nonempty — while defaulting applies exactly when the stored value itself
is absent. -/
theorem stringArray_present_empty_decodes_empty (key : String) (ver : Nat)
    (d : List String) :
    StringArrayFromValue (some (StoredValue.mk ver (Payload.stringArrayProto []))) key d none
      = Except.ok [] ∧
    (d ≠ [] →
      StringArrayFromValue (some (StoredValue.mk ver (Payload.stringArrayProto []))) key d none
        ≠ Except.ok d) ∧
    StringArrayFromValue none key d none = Except.ok d := by
  refine ⟨rfl, fun hd hc => hd ?_, rfl⟩
  exact (Except.ok.inj hc).symm

/-- C9 witness: with default a, b, a present empty string-array payload
decodes to the empty array and differs from the default, while the absent
value decodes to the default. -/
theorem stringArray_present_empty_decodes_empty_witness :
    StringArrayFromValue (some (StoredValue.mk 0 (Payload.stringArrayProto []))) "key"
        ["a", "b"] none = Except.ok [] ∧
    StringArrayFromValue (some (StoredValue.mk 0 (Payload.stringArrayProto []))) "key"
        ["a", "b"] none ≠ Except.ok ["a", "b"] ∧
    StringArrayFromValue none "key" ["a", "b"] none = Except.ok ["a", "b"] :=
  ⟨(stringArray_present_empty_decodes_empty "key" 0 ["a", "b"]).1,
   (stringArray_present_empty_decodes_empty "key" 0 ["a", "b"]).2.1 (by decide),
   (stringArray_present_empty_decodes_empty "key" 0 ["a", "b"]).2.2⟩

/-- C10: for every etcd Options value and every key, ApplyPrefix returns
the key unchanged when the prefix is empty, and otherwise the prefix, a
slash, and the key concatenated. -/
theorem apply_prefix_correct (o : EtcdOptions) (key : String) :
    (OptionsPrefix o = "" → ApplyPrefix o key = key) ∧
    (OptionsPrefix o ≠ "" → ApplyPrefix o key = OptionsPrefix o ++ "/" ++ key) := by
  unfold ApplyPrefix OptionsPrefix
  constructor
  · intro h
    rw [if_pos h]
  · intro h
    rw [if_neg h]

/-- C10 witness: the default options leave the key alone; options with
prefix ns map k to ns/k. -/
theorem apply_prefix_correct_witness :
    ApplyPrefix NewEtcdOptions "k" = "k" ∧
    ApplyPrefix (SetOptionsPrefix NewEtcdOptions "ns") "k" = "ns" ++ "/" ++ "k" :=
  ⟨(apply_prefix_correct NewEtcdOptions "k").1 rfl,
   (apply_prefix_correct (SetOptionsPrefix NewEtcdOptions "ns") "k").2 (by decide)⟩

end M3Cluster
